import Mathlib

/-!
# Verification of the always-on-top overlay coordinator (`src/alwaysontop/render.js`)

Shallow embedding of the overlay lifecycle code: state of the `AlwaysOnTop`
class instance (listener registrations, the two overlay handles, the
local-storage backed position), the observable effects it emits (IPC channel
messages, window-manager calls, storage writes), and the operations
`_openAlwaysOnTopWindow`, `_closeAlwaysOnTopWindow`, `_onConferenceJoined`,
`_onConferenceLeft`, `_onIntersection`, `_onParticipantJoined`, the
`_position` getter/setter and `getNumberFromLocalStorage`.
-/

namespace AOT

/-- Events of the primary (Jitsi Meet electron) window that the module
listens to. -/
inductive WinEvent where
  | blur
  | focus
  | close
deriving DecidableEq, Repr

/-- Handlers that the module registers on the primary window:
`_openAlwaysOnTopWindow` for blur, `_closeAlwaysOnTopWindow` for focus/close. -/
inductive WinHandler where
  | openAOT
  | closeAOT
deriving DecidableEq, Repr

/-- Events of the Jitsi iframe api (the conferencing engine) the module uses. -/
inductive ApiEvent where
  | videoConferenceJoined
  | videoConferenceLeft
  | willDispose
  | participantJoined
  | participantLeft
  | participantKickedOut
  | largeVideoChanged
deriving DecidableEq, Repr

/-- Handlers the module registers on the conferencing engine. -/
inductive ApiHandler where
  | onConferenceJoinedH
  | onConferenceLeftH
  | onParticipantJoinedH
  | onParticipantLeftH
  | onParticipantKickedOutH
  | updateLargeVideoSrcH
deriving DecidableEq, Repr

/-- Observable effects of the render-side code: IPC channel messages to the
main process, window-manager calls, and local-storage writes. -/
inductive Effect where
  /-- `localStorage.setItem(key, value)`. -/
  | storageWrite (key value : String)
  /-- `_sendPosition`: the `position` event on the `jitsi-always-on-top`
  channel, payload `{x, y}` (a coordinate is `none` when `undefined`). -/
  | sendPosition (x y : Option Int)
  /-- The `jitsi-always-on-top-should-close` IPC message asking the main
  process to destroy the overlay BrowserWindow. -/
  | sendShouldClose
  /-- The `jitsi-always-video-count` IPC message with a bound-video count. -/
  | sendVideoCount (count : Nat)
  /-- `window.open('', 'AlwaysOnTop')`: overlay window creation request. -/
  | windowOpen
  /-- `this._alwaysOnTopWindow.close()`: direct close of the overlay window. -/
  | windowClose
  /-- `this._alwaysOnTopBrowserWindow.getPosition()`: live position query. -/
  | queryPosition
  /-- `this._alwaysOnTopBrowserWindow.setBounds(...)` from the drag handler. -/
  | setBounds (x y width height : Int)
deriving DecidableEq, Repr

/-- An overlay-side `<video>` element (either the static `#video` element or a
per-participant `video_<id>` element). -/
structure VideoElement where
  srcObject : Option Nat
  transform : String
  playing : Bool
  display : String
  muted : Bool
  autoplay : Bool
deriving DecidableEq, Repr

/-- The overlay window's document: the `#video` element (if present), whether
the `#react` element exists, and the per-participant `video_<id>` elements
keyed by participant id (most recently inserted first, matching the
`insertAdjacentElement('afterend', ...)` placement right after `#react`). -/
structure AOTDocument where
  videoElem : Option VideoElement
  hasReactElem : Bool
  participantVideos : List (String × VideoElement)
deriving DecidableEq, Repr

/-- The DOM window reference returned by `window.open` (`_alwaysOnTopWindow`). -/
structure AOTWindow where
  document : Option AOTDocument
deriving DecidableEq, Repr

/-- The `_alwaysOnTopBrowserWindow` remote handle: destroyed flag, current
position and size (`getPosition()` reads `x`/`y`; `setBounds` writes all). -/
structure BrowserWindowHandle where
  destroyed : Bool
  x : Int
  y : Int
  width : Int
  height : Int
deriving DecidableEq, Repr

/-- State of one `AlwaysOnTop` instance together with its ambient resources:
local storage, the listener lists of the primary window and of the api
(most recently added first, matching Node's `removeListener` which removes
the most recently added matching instance), the count of
`_onMessageReceived` registrations on the `jitsi-always-on-top` ipc channel,
whether the IntersectionObserver is observing the iframe, and the two
overlay handles. -/
structure State where
  storage : List (String × String)
  winListeners : List (WinEvent × WinHandler)
  apiListeners : List (ApiEvent × ApiHandler)
  ipcListeners : Nat
  observing : Bool
  alwaysOnTopWindow : Option AOTWindow
  alwaysOnTopBrowserWindow : Option BrowserWindowHandle
deriving DecidableEq, Repr

/-! ## Association-list primitives (localStorage and `getElementById`) -/

/-- First-match lookup in an association list: `localStorage.getItem` and
`document.getElementById` (the first element with the id wins). -/
def lookupFirst {α : Type} : List (String × α) → String → Option α
  | [], _ => none
  | (k, v) :: rest, key => if k = key then some v else lookupFirst rest key

/-- `localStorage.setItem`: replaces the value of an existing key, otherwise
appends the entry. -/
def setItem : List (String × String) → String → String → List (String × String)
  | [], k, v => [(k, v)]
  | (k', v') :: rest, k, v =>
    if k' = k then (k, v) :: rest else (k', v') :: setItem rest k v

/-- Update the first entry with the given key (mutating the element that
`getElementById` would return). -/
def updateFirst {α : Type} (f : α → α) : List (String × α) → String → List (String × α)
  | [], _ => []
  | (k, v) :: rest, key =>
    if k = key then (k, f v) :: rest else (k, v) :: updateFirst f rest key

@[simp]
theorem lookupFirst_nil {α : Type} (key : String) :
    lookupFirst ([] : List (String × α)) key = none := rfl

@[simp]
theorem lookupFirst_cons {α : Type} (k key : String) (v : α) (rest : List (String × α)) :
    lookupFirst ((k, v) :: rest) key = if k = key then some v else lookupFirst rest key := rfl

theorem lookupFirst_setItem_self (st : List (String × String)) (k v : String) :
    lookupFirst (setItem st k v) k = some v := by
  induction st with
  | nil => simp [setItem]
  | cons hd tl ih =>
    obtain ⟨k', v'⟩ := hd
    by_cases h : k' = k <;> simp [setItem, h, ih]

theorem lookupFirst_setItem_other (st : List (String × String)) (k v key : String)
    (hne : k ≠ key) :
    lookupFirst (setItem st k v) key = lookupFirst st key := by
  induction st with
  | nil => simp [setItem, hne]
  | cons hd tl ih =>
    obtain ⟨k', v'⟩ := hd
    by_cases h : k' = k
    · subst h
      simp [setItem, hne]
    · simp [setItem, h, ih]

theorem lookupFirst_updateFirst_self {α : Type} (f : α → α) (l : List (String × α))
    (key : String) :
    lookupFirst (updateFirst f l key) key = (lookupFirst l key).map f := by
  induction l with
  | nil => simp [updateFirst]
  | cons hd tl ih =>
    obtain ⟨k, v⟩ := hd
    by_cases h : k = key <;> simp [updateFirst, h, ih]

theorem lookupFirst_updateFirst_other {α : Type} (f : α → α) (l : List (String × α))
    (key q : String) (hne : q ≠ key) :
    lookupFirst (updateFirst f l key) q = lookupFirst l q := by
  induction l with
  | nil => simp [updateFirst]
  | cons hd tl ih =>
    obtain ⟨k, v⟩ := hd
    by_cases h : k = key
    · subst h
      simp [updateFirst, Ne.symm hne, ih]
    · simp [updateFirst, h, ih]

theorem keys_updateFirst {α : Type} (f : α → α) (l : List (String × α)) (key : String) :
    (updateFirst f l key).map Prod.fst = l.map Prod.fst := by
  induction l with
  | nil => simp [updateFirst]
  | cons hd tl ih =>
    obtain ⟨k, v⟩ := hd
    by_cases h : k = key <;> simp [updateFirst, h, ih]

theorem not_mem_keys_of_lookupFirst_none {α : Type} (l : List (String × α)) (key : String)
    (h : lookupFirst l key = none) : key ∉ l.map Prod.fst := by
  induction l with
  | nil => simp
  | cons hd tl ih =>
    obtain ⟨k, v⟩ := hd
    by_cases hk : k = key
    · simp [hk] at h
    · simp only [lookupFirst_cons, if_neg hk] at h
      simp only [List.map_cons, List.mem_cons, not_or]
      exact ⟨fun hkey => hk hkey.symm, ih h⟩

theorem mem_keys_of_lookupFirst_some {α : Type} (l : List (String × α)) (key : String)
    (v : α) (h : lookupFirst l key = some v) : key ∈ l.map Prod.fst := by
  induction l with
  | nil => simp [lookupFirst] at h
  | cons hd tl ih =>
    obtain ⟨k, w⟩ := hd
    by_cases hk : k = key
    · simp [hk]
    · simp only [lookupFirst_cons, if_neg hk] at h
      simpa using Or.inr (ih h)

/-! ## JavaScript number/string coercions

`localStorage` stores strings; the code stores the coordinates via the
implicit `String(number)` coercion of `setItem` and parses them back with
`Number(...)`.  We model the coercion on the value space this module actually
writes (integers, as produced by `BrowserWindow.getPosition()`): canonical
decimal integer strings.  `jsNumber` models `Number()` on that space: the
empty string yields `0` (as in JavaScript; the source guards the empty string
before calling `Number`), an optionally negated digit string yields its
value, and every other string is `NaN`, modelled as `none`. -/

/-- Is the character a decimal digit (`'0'`..`'9'`, code points 48..57)? -/
def isDigitChar (c : Char) : Bool := 48 ≤ c.toNat && c.toNat ≤ 57

/-- Numeric value of a big-endian digit string. -/
def digitsToNat (l : List Char) : Nat :=
  l.foldl (fun acc c => 10 * acc + (c.toNat - 48)) 0

/-- Big-endian decimal digits of a natural number, as in `String(n)`. -/
def natToDigits (n : Nat) : List Char :=
  if h : n < 10 then [Char.ofNat (48 + n)]
  else natToDigits (n / 10) ++ [Char.ofNat (48 + n % 10)]
  termination_by n
  decreasing_by
    exact Nat.div_lt_self (by omega) (by omega)

/-- The JavaScript `String(number)` coercion, restricted to integers. -/
def jsIntToString (n : Int) : String :=
  if n < 0 then String.mk ('-' :: natToDigits n.natAbs)
  else String.mk (natToDigits n.natAbs)

/-- The JavaScript `Number(string)` conversion, restricted to the canonical
integer strings this module writes; any other nonempty string is `NaN`
(`none`).  `Number('')` is `0`, which is why the source checks for the empty
string before converting. -/
def jsNumber (v : String) : Option Int :=
  match v.toList with
  | [] => some 0
  | c :: rest =>
    if c.toNat = 45 then
      if rest.isEmpty then none
      else if rest.all isDigitChar then some (-(digitsToNat rest : Int)) else none
    else
      if (c :: rest).all isDigitChar then some ((digitsToNat (c :: rest) : Int)) else none

theorem toNat_digitChar (d : Nat) (h : d < 10) : (Char.ofNat (48 + d)).toNat = 48 + d := by
  interval_cases d <;> decide

theorem isDigitChar_digit (d : Nat) (h : d < 10) : isDigitChar (Char.ofNat (48 + d)) = true := by
  interval_cases d <;> decide

theorem digitsToNat_append_digit (l : List Char) (c : Char) :
    digitsToNat (l ++ [c]) = 10 * digitsToNat l + (c.toNat - 48) := by
  simp [digitsToNat, List.foldl_append]

theorem natToDigits_spec (n : Nat) :
    (natToDigits n).all isDigitChar = true ∧ digitsToNat (natToDigits n) = n ∧
      natToDigits n ≠ [] := by
  induction n using Nat.strong_induction_on with
  | _ n ih =>
    rw [natToDigits]
    by_cases h : n < 10
    · refine ⟨?_, ?_, by simp [h]⟩
      · simp [h, isDigitChar_digit n]
      · simp [h, digitsToNat, toNat_digitChar n]
    · have hdiv : n / 10 < n := Nat.div_lt_self (by omega) (by omega)
      obtain ⟨ihall, ihval, _⟩ := ih (n / 10) hdiv
      refine ⟨?_, ?_, by simp [h]⟩
      · simp only [h, if_false, dite_false, List.all_append, ihall, Bool.true_and]
        simp [isDigitChar_digit (n % 10) (Nat.mod_lt n (by omega))]
      · simp only [h, dite_false]
        rw [digitsToNat_append_digit, ihval,
          toNat_digitChar (n % 10) (Nat.mod_lt n (by omega))]
        omega

theorem jsIntToString_ne_empty (n : Int) : jsIntToString n ≠ "" := by
  obtain ⟨-, -, hne⟩ := natToDigits_spec n.natAbs
  unfold jsIntToString
  by_cases h : n < 0 <;> simp only [h, if_true, if_false] <;>
    intro hcontra <;> apply hne
  · have := congrArg String.toList hcontra
    simp at this
  · have := congrArg String.toList hcontra
    simpa using this

theorem not_minus_of_isDigitChar (c : Char) (h : isDigitChar c = true) : ¬ c.toNat = 45 := by
  simp only [isDigitChar, Bool.and_eq_true, decide_eq_true_eq] at h
  omega

/-- Writing an integer with the JavaScript string coercion and reading it back
with `Number()` recovers the integer. -/
theorem jsNumber_jsIntToString (n : Int) : jsNumber (jsIntToString n) = some n := by
  obtain ⟨hall, hval, hne⟩ := natToDigits_spec n.natAbs
  by_cases h : n < 0
  · have habs : ((n.natAbs : Int)) = -n := by omega
    unfold jsIntToString
    rw [if_pos h]
    unfold jsNumber
    cases hd : natToDigits n.natAbs with
    | nil => exact absurd hd hne
    | cons c rest =>
      simp only [String.toList, hd, List.isEmpty_cons, if_false]
      rw [if_pos (by decide)]
      rw [if_neg (by simp), if_pos (by rw [← hd]; exact hall)]
      rw [← hd, hval, habs]
      simp
  · have habs : ((n.natAbs : Int)) = n := by omega
    unfold jsIntToString
    rw [if_neg h]
    unfold jsNumber
    cases hd : natToDigits n.natAbs with
    | nil => exact absurd hd hne
    | cons c rest =>
      have hcd : isDigitChar c = true := by
        have := hall
        rw [hd] at this
        simp only [List.all_cons, Bool.and_eq_true] at this
        exact this.1
      simp only [String.toList, hd]
      rw [if_neg (not_minus_of_isDigitChar c hcd), if_pos (by rw [← hd]; exact hall)]
      rw [← hd, hval, habs]

/-! ## The module's storage-facing functions -/

/-- The two localStorage keys used for the overlay position. -/
def aotXKey : String := "jitsi-always-on-top-x"

/-- The y-coordinate localStorage key. -/
def aotYKey : String := "jitsi-always-on-top-y"

/-- `getNumberFromLocalStorage(localStorageKey)`: reads the key from
localStorage; a missing value (`null`, not a string) or the empty string
yields `undefined`; otherwise the value is converted with `Number(...)` and
`NaN` (our `none`) yields `undefined`. -/
def getNumberFromLocalStorage (storage : List (String × String)) (key : String) :
    Option Int :=
  match lookupFirst storage key with
  | none => none
  | some v => if v = "" then none else jsNumber v

/-- The `get _position` property: reads both coordinates from localStorage. -/
def positionProp (s : State) : Option Int × Option Int :=
  (getNumberFromLocalStorage s.storage aotXKey,
   getNumberFromLocalStorage s.storage aotYKey)

/-- The `set _position` property: only when both coordinates are numbers does
it write the two localStorage keys (via the implicit `String(number)`
coercion) and call `_sendPosition` (the `position` channel event). -/
def setPositionProp (s : State) (x y : Option Int) : State × List Effect :=
  match x, y with
  | some xv, some yv =>
    ({ s with storage := setItem (setItem s.storage aotXKey (jsIntToString xv))
                           aotYKey (jsIntToString yv) },
     [Effect.storageWrite aotXKey (jsIntToString xv),
      Effect.storageWrite aotYKey (jsIntToString yv),
      Effect.sendPosition (some xv) (some yv)])
  | _, _ => (s, [])

/-! ## Open and close -/

/-- The window reference `window.open('', 'AlwaysOnTop')` returns: an
about:blank window whose document initially holds none of the elements the
overlay script later renders. -/
def freshAOTWindow : AOTWindow :=
  ⟨some { videoElem := none, hasReactElem := false, participantVideos := [] }⟩

/-- `_openAlwaysOnTopWindow()`: early-returns when `_alwaysOnTopWindow` is
already set; otherwise registers `_onMessageReceived` on the
`jitsi-always-on-top` ipc channel, registers `_updateLargeVideoSrc` for
`largeVideoChanged` on the api, and opens the overlay window. -/
def openAlwaysOnTopWindow (s : State) : State × List Effect :=
  match s.alwaysOnTopWindow with
  | some _ => (s, [])
  | none =>
    ({ s with ipcListeners := s.ipcListeners + 1,
              apiListeners :=
                (ApiEvent.largeVideoChanged, ApiHandler.updateLargeVideoSrcH)
                  :: s.apiListeners,
              alwaysOnTopWindow := some freshAOTWindow },
     [Effect.windowOpen])

/-- `_closeAlwaysOnTopWindow()`: if the BrowserWindow handle exists and is not
destroyed, query its live position and run the `_position` setter; if the
`window.open` reference exists, close the window (only when the BrowserWindow
handle exists and is not destroyed) and remove the ipc listener;
unconditionally send `jitsi-always-on-top-should-close` and clear both
references. -/
def closeAlwaysOnTopWindow (s : State) : State × List Effect :=
  let step1 : State × List Effect :=
    match s.alwaysOnTopBrowserWindow with
    | some bw =>
      if bw.destroyed then (s, [])
      else
        let r := setPositionProp s (some bw.x) (some bw.y)
        (r.1, Effect.queryPosition :: r.2)
    | none => (s, [])
  let s1 := step1.1
  let step2 : State × List Effect :=
    match s1.alwaysOnTopWindow with
    | some _ =>
      let closeEff : List Effect :=
        match s1.alwaysOnTopBrowserWindow with
        | some bw => if bw.destroyed then [] else [Effect.windowClose]
        | none => []
      ({ s1 with ipcListeners := s1.ipcListeners - 1 }, closeEff)
    | none => (s1, [])
  ({ step2.1 with alwaysOnTopBrowserWindow := none, alwaysOnTopWindow := none },
   step1.2 ++ step2.2 ++ [Effect.sendShouldClose])

/-! ## Listener bookkeeping on the primary window -/

/-- `removeListener` on the primary window: Node removes at most one, the most
recently added, matching instance; our lists are most-recent-first. -/
def removeFirstPair {α : Type} [DecidableEq α] : List α → α → List α
  | [], _ => []
  | p :: rest, q => if p = q then rest else p :: removeFirstPair rest q

/-- `_onConferenceJoined()`: attaches the blur/focus/close listeners on the
primary window and starts observing the api iframe. -/
def onConferenceJoined (s : State) : State :=
  { s with
      winListeners :=
        (WinEvent.close, WinHandler.closeAOT)
          :: (WinEvent.focus, WinHandler.closeAOT)
          :: (WinEvent.blur, WinHandler.openAOT)
          :: s.winListeners,
      observing := true }

/-- `_onConferenceLeft()`: stops observing the iframe, detaches the three
primary-window listeners, calls `_sendResetSize` (a no-op: its body starts
with `return`) and closes the overlay window. -/
def onConferenceLeft (s : State) : State × List Effect :=
  let s1 := { s with observing := false }
  let s2 := { s1 with winListeners := removeFirstPair s1.winListeners (WinEvent.blur, WinHandler.openAOT) }
  let s3 := { s2 with winListeners := removeFirstPair s2.winListeners (WinEvent.focus, WinHandler.closeAOT) }
  let s4 := { s3 with winListeners := removeFirstPair s3.winListeners (WinEvent.close, WinHandler.closeAOT) }
  closeAlwaysOnTopWindow s4

/-- `_onIntersection(entries)`: pops the last entry (`none` models the crash
on an empty entries array), always removes the focus listener first; when the
entry is intersecting, closes the overlay and reattaches the focus listener;
otherwise opens the overlay (leaving the focus listener detached). -/
def onIntersection (entries : List Bool) (s : State) : Option (State × List Effect) :=
  match entries.getLast? with
  | none => none
  | some isIntersecting =>
    let s1 := { s with winListeners := removeFirstPair s.winListeners (WinEvent.focus, WinHandler.closeAOT) }
    if isIntersecting then
      let r := closeAlwaysOnTopWindow s1
      some ({ r.1 with winListeners := (WinEvent.focus, WinHandler.closeAOT) :: r.1.winListeners }, r.2)
    else
      some (openAlwaysOnTopWindow s1)

/-- The `move` drag handler installed by `_setupAlwaysOnTopWindow`: calls
`setBounds` on the BrowserWindow handle when one exists; it never sends a
`position` channel message. -/
def moveHandler (s : State) (x y w h : Int) : State × List Effect :=
  match s.alwaysOnTopBrowserWindow with
  | some bw =>
    ({ s with alwaysOnTopBrowserWindow := some { bw with x := x, y := y, width := w, height := h } },
     [Effect.setBounds x y w h])
  | none => (s, [])

/-- Api listeners registered by the `AlwaysOnTop` constructor, most recent
first. -/
def constructorApiListeners : List (ApiEvent × ApiHandler) :=
  [(ApiEvent.participantKickedOut, ApiHandler.onParticipantKickedOutH),
   (ApiEvent.participantLeft, ApiHandler.onParticipantLeftH),
   (ApiEvent.participantJoined, ApiHandler.onParticipantJoinedH),
   (ApiEvent.willDispose, ApiHandler.onConferenceLeftH),
   (ApiEvent.videoConferenceLeft, ApiHandler.onConferenceLeftH),
   (ApiEvent.videoConferenceJoined, ApiHandler.onConferenceJoinedH)]

/-- The `AlwaysOnTop` constructor (given a non-null api): registers the api
listeners, and ends with `this._sendPosition(this._position)` — a `position`
channel message carrying the stored (possibly `undefined`) coordinates. -/
def constructorRun (storage : List (String × String)) : State × List Effect :=
  let s : State :=
    { storage := storage, winListeners := [], apiListeners := constructorApiListeners,
      ipcListeners := 0, observing := false,
      alwaysOnTopWindow := none, alwaysOnTopBrowserWindow := none }
  (s, [Effect.sendPosition (positionProp s).1 (positionProp s).2])

/-! ## The VideoRouter pass (`_onParticipantJoined`) -/

/-- A participant's source video element in the primary window, as returned by
`api._getParticipantVideo`: its media stream and its CSS transform. -/
structure SourceVideo where
  srcObject : Option Nat
  transform : String
deriving DecidableEq, Repr

/-- What the pass reads from the api: `Object.keys(this._api._participants)`
and `_getParticipantVideo` per id (an association list; `none` = no
resolvable video). -/
structure ApiSnapshot where
  participants : List String
  videos : List (String × SourceVideo)
deriving DecidableEq, Repr

/-- A freshly created participant video element
(`createElement('video')` with `muted = true`, `autoplay = true`). -/
def newParticipantVideo : VideoElement :=
  { srcObject := none, transform := "", playing := false, display := "",
    muted := true, autoplay := true }

/-- `_getOrInsertAlwaysOnTopWindowParticipantVideo(participantId)`: `none`
models both the `undefined` return (no overlay window / document, on which
the caller then crashes) and the crash when `#react` is absent; otherwise the
state in which the `video_<id>` element exists (reused if already present,
freshly created and inserted after `#react` otherwise). -/
def getOrInsertParticipantVideo (s : State) (pid : String) : Option State :=
  match s.alwaysOnTopWindow with
  | none => none
  | some w =>
    match w.document with
    | none => none
    | some d =>
      match lookupFirst d.participantVideos pid with
      | some _ => some s
      | none =>
        if d.hasReactElem then
          some { s with alwaysOnTopWindow := some ⟨some { d with participantVideos := (pid, newParticipantVideo) :: d.participantVideos }⟩ }
        else none

/-- `this._alwaysOnTopWindowVideo.style.display = 'block'`: requires the
overlay window, its document and the `#video` element (`none` models the
crash otherwise). -/
def setAOTVideoDisplayBlock (s : State) : Option State :=
  match s.alwaysOnTopWindow with
  | none => none
  | some w =>
    match w.document with
    | none => none
    | some d =>
      match d.videoElem with
      | none => none
      | some ve =>
        some { s with alwaysOnTopWindow := some ⟨some { d with videoElem := some { ve with display := "block" } }⟩ }

/-- The three mutations on the participant's video element:
`srcObject = mediaStream`, `style.transform = transform`, `play()`. -/
def attachVideo (v : SourceVideo) (e : VideoElement) : VideoElement :=
  { e with srcObject := v.srcObject, transform := v.transform, playing := true }

/-- Applying the three mutations to the element `getElementById` resolves for
the participant. -/
def bindParticipantVideo (s : State) (pid : String) (v : SourceVideo) : State :=
  match s.alwaysOnTopWindow with
  | some w =>
    match w.document with
    | some d =>
      { s with alwaysOnTopWindow := some ⟨some { d with participantVideos := updateFirst (attachVideo v) d.participantVideos pid }⟩ }
    | none => s
  | none => s

/-- One iteration of the `participantsIds.forEach` body: participants without
a resolvable video are skipped; with a video, the element is fetched or
created, the `#video` element's display set to block, the stream/transform
attached and playback started, and the counter incremented.  In both cases
the iteration ends by sending `jitsi-always-video-count` with the running
count (the send sits inside the `forEach` callback). -/
def processParticipant (api : ApiSnapshot) (pid : String) (s : State) (count : Nat) :
    Option (State × List Effect × Nat) :=
  match lookupFirst api.videos pid with
  | none => some (s, [Effect.sendVideoCount count], count)
  | some v =>
    match getOrInsertParticipantVideo s pid with
    | none => none
    | some s1 =>
      match setAOTVideoDisplayBlock s1 with
      | none => none
      | some s2 =>
        let s3 := bindParticipantVideo s2 pid v
        some (s3, [Effect.sendVideoCount (count + 1)], count + 1)

/-- The `forEach` loop over the participant ids, threading the state and the
`videoCount` accumulator and concatenating the emitted effects. -/
def processParticipants (api : ApiSnapshot) :
    List String → State → Nat → Option (State × List Effect × Nat)
  | [], s, count => some (s, [], count)
  | pid :: rest, s, count =>
    match processParticipant api pid s count with
    | none => none
    | some (s1, e1, c1) =>
      match processParticipants api rest s1 c1 with
      | none => none
      | some (s2, e2, c2) => some (s2, e1 ++ e2, c2)

/-- `_onParticipantJoined()`: runs the pass over all currently known
participants starting from `videoCount = 0`. -/
def onParticipantJoined (api : ApiSnapshot) (s : State) : Option (State × List Effect) :=
  (processParticipants api api.participants s 0).map (fun r => (r.1, r.2.1))

/-- Is the overlay window present with a document that has both the `#video`
and the `#react` elements (the configuration in which a VideoRouter pass
dereferences nothing dead)? -/
def overlayReady (s : State) : Bool :=
  match s.alwaysOnTopWindow with
  | some ⟨some d⟩ => d.videoElem.isSome && d.hasReactElem
  | _ => false

/-- The participant video elements of the overlay document ([] when no
overlay document exists). -/
def docVideos (s : State) : List (String × VideoElement) :=
  match s.alwaysOnTopWindow with
  | some ⟨some d⟩ => d.participantVideos
  | _ => []

/-- The sequence of `jitsi-always-video-count` messages one pass emits: one
message per participant, carrying the running count of bound videos. -/
def runningCountTrace (api : ApiSnapshot) : List String → Nat → List Effect
  | [], _ => []
  | pid :: rest, c =>
    let c' := if (lookupFirst api.videos pid).isSome then c + 1 else c
    Effect.sendVideoCount c' :: runningCountTrace api rest c'

/-! ## Helper lemmas about close/open -/

/-- A convenient closed base state: fresh storage, no listeners, no overlay. -/
def baseState : State :=
  { storage := [], winListeners := [], apiListeners := [], ipcListeners := 0,
    observing := false, alwaysOnTopWindow := none, alwaysOnTopBrowserWindow := none }

theorem close_of_noRefs (s : State) (hw : s.alwaysOnTopWindow = none)
    (hb : s.alwaysOnTopBrowserWindow = none) :
    closeAlwaysOnTopWindow s = (s, [Effect.sendShouldClose]) := by
  cases s
  simp_all [closeAlwaysOnTopWindow]

theorem close_clears_refs (s : State) :
    (closeAlwaysOnTopWindow s).1.alwaysOnTopWindow = none ∧
      (closeAlwaysOnTopWindow s).1.alwaysOnTopBrowserWindow = none := by
  simp [closeAlwaysOnTopWindow]

theorem close_winListeners (s : State) :
    (closeAlwaysOnTopWindow s).1.winListeners = s.winListeners := by
  rcases s with ⟨st, wl, al, ipc, ob, w, b⟩
  rcases b with _ | bw
  · rcases w with _ | w <;> simp [closeAlwaysOnTopWindow]
  · rcases hd : bw.destroyed <;> rcases w with _ | w <;>
      simp [closeAlwaysOnTopWindow, setPositionProp, hd]

theorem close_apiListeners (s : State) :
    (closeAlwaysOnTopWindow s).1.apiListeners = s.apiListeners := by
  rcases s with ⟨st, wl, al, ipc, ob, w, b⟩
  rcases b with _ | bw
  · rcases w with _ | w <;> simp [closeAlwaysOnTopWindow]
  · rcases hd : bw.destroyed <;> rcases w with _ | w <;>
      simp [closeAlwaysOnTopWindow, setPositionProp, hd]

theorem close_observing (s : State) :
    (closeAlwaysOnTopWindow s).1.observing = s.observing := by
  rcases s with ⟨st, wl, al, ipc, ob, w, b⟩
  rcases b with _ | bw
  · rcases w with _ | w <;> simp [closeAlwaysOnTopWindow]
  · rcases hd : bw.destroyed <;> rcases w with _ | w <;>
      simp [closeAlwaysOnTopWindow, setPositionProp, hd]

/-- Characterization of close on a state whose BrowserWindow handle exists
but is already destroyed: no storage access, the ipc listener is removed
when the `window.open` reference exists, and only `should-close` is sent. -/
theorem close_of_dead (s : State) (bw : BrowserWindowHandle)
    (hb : s.alwaysOnTopBrowserWindow = some bw) (hd : bw.destroyed = true) :
    closeAlwaysOnTopWindow s =
      ({ s with ipcListeners := if s.alwaysOnTopWindow.isSome then s.ipcListeners - 1 else s.ipcListeners, alwaysOnTopBrowserWindow := none, alwaysOnTopWindow := none },
       [Effect.sendShouldClose]) := by
  rcases s with ⟨st, wl, al, ipc, ob, w, b⟩
  simp only at hb
  subst hb
  rcases w with _ | w <;> simp [closeAlwaysOnTopWindow, hd]

/-! ## C1: close with no overlay -/

/-- C1 counterexample: the claim says `_closeAlwaysOnTopWindow` with both the
overlay window reference and the browser-window handle unset is a no-op with
no window-manager destroy call.  In fact it is not effect-free: it
unconditionally sends `jitsi-always-on-top-should-close`, the channel message
that asks the window-manager side to destroy the overlay BrowserWindow. -/
theorem close_noOverlay_counterexample :
    (closeAlwaysOnTopWindow baseState).2 = [Effect.sendShouldClose] ∧
      (closeAlwaysOnTopWindow baseState).2 ≠ [] := by
  constructor <;> decide

/-- C1 (amended): with no overlay window reference and no browser-window
handle, `_closeAlwaysOnTopWindow` performs no position-storage write, no
position query and no direct window close, and leaves the state unchanged;
its only effect is the unconditional `should-close` destroy request to the
main process. -/
theorem close_noOverlay_amended (s : State) (hw : s.alwaysOnTopWindow = none)
    (hb : s.alwaysOnTopBrowserWindow = none) :
    closeAlwaysOnTopWindow s = (s, [Effect.sendShouldClose]) :=
  close_of_noRefs s hw hb

/-- C1 witness: the amended theorem applied at the fresh base state. -/
theorem close_noOverlay_amended_witness :
    closeAlwaysOnTopWindow baseState = (baseState, [Effect.sendShouldClose]) :=
  close_noOverlay_amended baseState rfl rfl

/-! ## C2: opening twice creates one window -/

/-- C2: starting with no overlay window reference, `_openAlwaysOnTopWindow`
issues exactly one `window.open` creation call, and a second invocation in
direct succession changes nothing: same state, no effects, so no second
creation call and no duplicate ipc/api listener registration. -/
theorem open_twice_single_create (s : State) (h : s.alwaysOnTopWindow = none) :
    (openAlwaysOnTopWindow s).2 = [Effect.windowOpen] ∧
      openAlwaysOnTopWindow (openAlwaysOnTopWindow s).1 = ((openAlwaysOnTopWindow s).1, []) := by
  constructor <;> simp [openAlwaysOnTopWindow, h]

/-- C2 witness: the theorem applied at the fresh base state. -/
theorem open_twice_single_create_witness :
    (openAlwaysOnTopWindow baseState).2 = [Effect.windowOpen] ∧
      openAlwaysOnTopWindow (openAlwaysOnTopWindow baseState).1 = ((openAlwaysOnTopWindow baseState).1, []) :=
  open_twice_single_create baseState rfl

/-! ## C3: closing with an externally destroyed handle -/

/-- C3: when the browser-window handle exists but the platform has already
destroyed it, `_closeAlwaysOnTopWindow` treats it as nothing-to-do: no live
position query, no storage write, no `position` message, no second destroy
attempt (`window.close`), no error — the whole trace is the single
`should-close` message — and, on this and every other exit path, the
operation ends with both handle references cleared (state Closed). -/
theorem close_deadHandle_safe (s : State) (bw : BrowserWindowHandle)
    (hb : s.alwaysOnTopBrowserWindow = some bw) (hd : bw.destroyed = true) :
    (closeAlwaysOnTopWindow s).2 = [Effect.sendShouldClose] ∧
      Effect.windowClose ∉ (closeAlwaysOnTopWindow s).2 ∧
      Effect.queryPosition ∉ (closeAlwaysOnTopWindow s).2 ∧
      (∀ k v, Effect.storageWrite k v ∉ (closeAlwaysOnTopWindow s).2) ∧
      (closeAlwaysOnTopWindow s).1.storage = s.storage ∧
      (∀ t, (closeAlwaysOnTopWindow t).1.alwaysOnTopWindow = none ∧
        (closeAlwaysOnTopWindow t).1.alwaysOnTopBrowserWindow = none) := by
  rw [close_of_dead s bw hb hd]
  refine ⟨rfl, by simp, by simp, by simp, by simp, close_clears_refs⟩

/-- A browser-window handle the platform has already destroyed. -/
def deadBW : BrowserWindowHandle :=
  { destroyed := true, x := 5, y := 6, width := 100, height := 50 }

/-- A state holding an overlay window reference and an externally destroyed
browser-window handle. -/
def deadHandleState : State :=
  { baseState with alwaysOnTopWindow := some freshAOTWindow, alwaysOnTopBrowserWindow := some deadBW }

/-- C3 witness: the theorem applied at a concrete state with a destroyed
handle. -/
theorem close_deadHandle_safe_witness :
    (closeAlwaysOnTopWindow deadHandleState).2 = [Effect.sendShouldClose] ∧
      Effect.windowClose ∉ (closeAlwaysOnTopWindow deadHandleState).2 ∧
      (closeAlwaysOnTopWindow deadHandleState).1.storage = deadHandleState.storage :=
  ⟨(close_deadHandle_safe deadHandleState deadBW rfl rfl).1,
   (close_deadHandle_safe deadHandleState deadBW rfl rfl).2.1,
   (close_deadHandle_safe deadHandleState deadBW rfl rfl).2.2.2.2.1⟩

/-! ## C10, C7, C8: the position setter and storage parsing -/

theorem setPositionProp_undefined (s : State) (x y : Option Int)
    (h : x = none ∨ y = none) : setPositionProp s x y = (s, []) := by
  cases x with
  | none => cases y <;> rfl
  | some xv =>
    cases y with
    | none => rfl
    | some yv => rcases h with h | h <;> simp at h

/-- C10: the `_position` setter is a guarded write — when either coordinate
is not a number (`undefined`, modelled as `none`), the state (hence both
localStorage keys) is left unchanged and no effect (in particular no
`position` message and no storage write) is emitted. -/
theorem position_setter_guarded (s : State) (x y : Option Int)
    (h : x = none ∨ y = none) : setPositionProp s x y = (s, []) :=
  setPositionProp_undefined s x y h

/-- C10 witness: the setter applied with an undefined x coordinate. -/
theorem position_setter_guarded_witness :
    setPositionProp baseState none (some 3) = (baseState, []) :=
  position_setter_guarded baseState none (some 3) (Or.inl rfl)

/-- C7: position round-trip — writing a pair of integers through the
`_position` setter (as happens when the overlay closes) and reading it back
through the `_position` getter yields the same pair, and the `position`
message sent to the main process (which performs the placement of the next
created window) carries exactly that pair. -/
theorem getNumber_of_lookup (storage : List (String × String)) (key v : String)
    (h : lookupFirst storage key = some v) :
    getNumberFromLocalStorage storage key = if v = "" then none else jsNumber v := by
  unfold getNumberFromLocalStorage
  rw [h]

theorem getNumber_of_lookup_none (storage : List (String × String)) (key : String)
    (h : lookupFirst storage key = none) :
    getNumberFromLocalStorage storage key = none := by
  unfold getNumberFromLocalStorage
  rw [h]

theorem position_roundtrip (s : State) (x y : Int) :
    positionProp (setPositionProp s (some x) (some y)).1 = (some x, some y) ∧
      Effect.sendPosition (some x) (some y) ∈ (setPositionProp s (some x) (some y)).2 := by
  constructor
  · unfold positionProp setPositionProp
    simp only
    rw [getNumber_of_lookup _ _ (jsIntToString x)
        (by rw [lookupFirst_setItem_other _ _ _ _ (by decide)]; exact lookupFirst_setItem_self _ _ _),
      getNumber_of_lookup _ _ (jsIntToString y) (lookupFirst_setItem_self _ _ _)]
    rw [if_neg (jsIntToString_ne_empty x), if_neg (jsIntToString_ne_empty y)]
    rw [jsNumber_jsIntToString, jsNumber_jsIntToString]
  · simp [setPositionProp]

/-- C8: `getNumberFromLocalStorage` never throws and resolves as follows: an
absent value is `undefined`; the empty string is `undefined`; a stored
non-numeric string (`Number` gives `NaN`) is `undefined`; a stored numeric
string is the parsed number — in particular any integer stored through the
JavaScript string coercion parses back exactly. -/
theorem getNumber_characterization (storage : List (String × String)) (key v : String) :
    (lookupFirst storage key = none → getNumberFromLocalStorage storage key = none) ∧
      (lookupFirst storage key = some "" → getNumberFromLocalStorage storage key = none) ∧
      (lookupFirst storage key = some v → v ≠ "" → jsNumber v = none →
        getNumberFromLocalStorage storage key = none) ∧
      (∀ n : Int, lookupFirst storage key = some v → v ≠ "" → jsNumber v = some n →
        getNumberFromLocalStorage storage key = some n) ∧
      (∀ n : Int, lookupFirst storage key = some (jsIntToString n) →
        getNumberFromLocalStorage storage key = some n) := by
  refine ⟨fun h => getNumber_of_lookup_none _ _ h, fun h => by rw [getNumber_of_lookup _ _ _ h]; simp,
    fun h hne hnan => ?_, fun n h hne hval => ?_, fun n h => ?_⟩
  · rw [getNumber_of_lookup _ _ _ h, if_neg hne, hnan]
  · rw [getNumber_of_lookup _ _ _ h, if_neg hne, hval]
  · rw [getNumber_of_lookup _ _ _ h, if_neg (jsIntToString_ne_empty n), jsNumber_jsIntToString]

/-- C8 witness: absent, empty, non-numeric and numeric stored values at
concrete storages. -/
theorem getNumber_characterization_witness :
    getNumberFromLocalStorage [] "k" = none ∧
      getNumberFromLocalStorage [("k", "")] "k" = none ∧
      getNumberFromLocalStorage [("k", "abcde")] "k" = none ∧
      getNumberFromLocalStorage [("k", "42")] "k" = some 42 :=
  ⟨(getNumber_characterization [] "k" "").1 rfl,
   (getNumber_characterization [("k", "")] "k" "").2.1 (by decide),
   (getNumber_characterization [("k", "abcde")] "k" "abcde").2.2.1 (by decide) (by decide)
     (by decide),
   (getNumber_characterization [("k", "42")] "k" "42").2.2.2.1 42 (by decide) (by decide)
     (by decide)⟩

/-! ## C6: when the `position` channel message is sent -/

/-- Is the effect a `position` channel message? -/
def isSendPositionEff : Effect → Bool
  | Effect.sendPosition _ _ => true
  | _ => false

theorem close_of_noBW (s : State) (hb : s.alwaysOnTopBrowserWindow = none) :
    (closeAlwaysOnTopWindow s).2 = [Effect.sendShouldClose] := by
  rcases s with ⟨st, wl, al, ipc, ob, w, b⟩
  simp only at hb
  subst hb
  rcases w with _ | w <;> simp [closeAlwaysOnTopWindow]

theorem close_of_live (s : State) (bw : BrowserWindowHandle)
    (hb : s.alwaysOnTopBrowserWindow = some bw) (hlive : bw.destroyed = false) :
    (closeAlwaysOnTopWindow s).2 =
      Effect.queryPosition :: (setPositionProp s (some bw.x) (some bw.y)).2
        ++ (if s.alwaysOnTopWindow.isSome then [Effect.windowClose] else [])
        ++ [Effect.sendShouldClose] := by
  rcases s with ⟨st, wl, al, ipc, ob, w, b⟩
  simp only at hb
  subst hb
  rcases w with _ | w <;> simp [closeAlwaysOnTopWindow, setPositionProp, hlive]

/-- C6 counterexample: the claim says a `position` message is sent whenever
the position setter is invoked, exactly once per settled close and never
otherwise.  All three parts fail on the code: (a) the constructor sends a
`position` message (with the stored, possibly undefined, coordinates) though
no close has settled and the setter was not invoked; (b) a settled close of
an existing overlay whose browser-window handle is already destroyed sends
no `position` message at all; (c) the setter invoked with an undefined
coordinate sends nothing. -/
theorem position_message_counterexample :
    (constructorRun []).2 = [Effect.sendPosition none none] ∧
      List.countP isSendPositionEff (closeAlwaysOnTopWindow deadHandleState).2 = 0 ∧
      deadHandleState.alwaysOnTopWindow.isSome = true ∧
      (setPositionProp baseState none (some 3)).2 = [] := by
  refine ⟨by decide, by decide, by decide, by decide⟩

/-- C6 (amended): a `position` message is sent exactly once by the setter
when both coordinates are numbers and never when one is undefined; a settled
close emits exactly one `position` message when the browser-window handle is
live at close time and none when the handle is absent or already destroyed;
the drag `move` handler never emits one (no message on transient drag
frames); and the constructor emits exactly one `position` message at
construction time. -/
theorem position_message_policy (s : State) (bw : BrowserWindowHandle)
    (hb : s.alwaysOnTopBrowserWindow = some bw) (hlive : bw.destroyed = false) :
    List.countP isSendPositionEff (closeAlwaysOnTopWindow s).2 = 1 ∧
      (∀ t (x y : Int), List.countP isSendPositionEff (setPositionProp t (some x) (some y)).2 = 1) ∧
      (∀ t x y, x = none ∨ y = none → (setPositionProp t x y).2 = []) ∧
      (∀ t, t.alwaysOnTopBrowserWindow = none →
        List.countP isSendPositionEff (closeAlwaysOnTopWindow t).2 = 0) ∧
      (∀ t b, t.alwaysOnTopBrowserWindow = some b → b.destroyed = true →
        List.countP isSendPositionEff (closeAlwaysOnTopWindow t).2 = 0) ∧
      (∀ t x y w h, List.countP isSendPositionEff (moveHandler t x y w h).2 = 0) ∧
      (∀ st, List.countP isSendPositionEff (constructorRun st).2 = 1) := by
  refine ⟨?_, ?_, ?_, ?_, ?_, ?_, ?_⟩
  · rw [close_of_live s bw hb hlive]
    rcases s.alwaysOnTopWindow with _ | w <;>
      simp [setPositionProp, isSendPositionEff, List.countP_append, List.countP_cons]
  · intro t x y
    simp [setPositionProp, isSendPositionEff, List.countP_cons]
  · intro t x y h
    rw [setPositionProp_undefined t x y h]
  · intro t ht
    rw [close_of_noBW t ht]
    simp [isSendPositionEff, List.countP_cons]
  · intro t b ht hd
    rw [close_of_dead t b ht hd]
    simp [isSendPositionEff, List.countP_cons]
  · intro t x y w h
    rcases hbw : t.alwaysOnTopBrowserWindow with _ | b <;>
      simp [moveHandler, hbw, isSendPositionEff, List.countP_cons]
  · intro st
    simp [constructorRun, isSendPositionEff, List.countP_cons]

/-- A live (not destroyed) browser-window handle at position (120, 340). -/
def liveBW : BrowserWindowHandle :=
  { destroyed := false, x := 120, y := 340, width := 100, height := 50 }

/-- A state with a live browser-window handle and an overlay window. -/
def liveHandleState : State :=
  { baseState with alwaysOnTopWindow := some freshAOTWindow, alwaysOnTopBrowserWindow := some liveBW }

/-- C6 witness: the amended theorem applied at a concrete state with a live
handle. -/
theorem position_message_policy_witness :
    List.countP isSendPositionEff (closeAlwaysOnTopWindow liveHandleState).2 = 1 ∧
      List.countP isSendPositionEff (constructorRun []).2 = 1 :=
  ⟨(position_message_policy liveHandleState liveBW rfl rfl).1,
   (position_message_policy liveHandleState liveBW rfl rfl).2.2.2.2.2.2 []⟩

/-! ## C4: `_onConferenceLeft` is idempotent and leak-free -/

theorem removeFirstPair_of_not_mem {α : Type} [DecidableEq α] (l : List α) (p : α)
    (h : p ∉ l) : removeFirstPair l p = l := by
  induction l with
  | nil => rfl
  | cons hd tl ih =>
    simp only [List.mem_cons, not_or] at h
    simp [removeFirstPair, Ne.symm h.1, ih h.2]

/-- Number of occurrences of an element in a list (used for listener
multiplicities; avoids depending on a `BEq` instance). -/
def countOcc {α : Type} [DecidableEq α] : List α → α → Nat
  | [], _ => 0
  | q :: rest, p => (if q = p then 1 else 0) + countOcc rest p

theorem countOcc_eq_zero_iff {α : Type} [DecidableEq α] (l : List α) (p : α) :
    countOcc l p = 0 ↔ p ∉ l := by
  induction l with
  | nil => simp [countOcc]
  | cons hd tl ih =>
    by_cases h : hd = p
    · subst h
      simp [countOcc]
    · simp only [countOcc, if_neg h, Nat.zero_add, List.mem_cons, not_or, ih]
      exact ⟨fun hm => ⟨fun hc => h hc.symm, hm⟩, fun hm => hm.2⟩

theorem countOcc_removeFirstPair_self {α : Type} [DecidableEq α] (l : List α) (p : α) :
    countOcc (removeFirstPair l p) p = countOcc l p - 1 := by
  induction l with
  | nil => rfl
  | cons hd tl ih =>
    by_cases h : hd = p
    · subst h
      simp [removeFirstPair, countOcc]
    · simp [removeFirstPair, countOcc, h, ih]

theorem countOcc_removeFirstPair_other {α : Type} [DecidableEq α] (l : List α) (p q : α)
    (hne : q ≠ p) : countOcc (removeFirstPair l p) q = countOcc l q := by
  induction l with
  | nil => rfl
  | cons hd tl ih =>
    by_cases h : hd = p
    · subst h
      have hqq : ¬hd = q := fun hc => hne hc.symm
      simp [removeFirstPair, countOcc, hqq]
    · simp [removeFirstPair, countOcc, h, ih]

/-- The state `_onConferenceLeft` passes to `_closeAlwaysOnTopWindow`:
observation stopped, the three join-time listeners removed. -/
def confLeftPreClose (s : State) : State :=
  { s with
      observing := false,
      winListeners :=
        removeFirstPair
          (removeFirstPair
            (removeFirstPair s.winListeners (WinEvent.blur, WinHandler.openAOT))
            (WinEvent.focus, WinHandler.closeAOT))
          (WinEvent.close, WinHandler.closeAOT) }

theorem onConferenceLeft_eq (s : State) :
    onConferenceLeft s = closeAlwaysOnTopWindow (confLeftPreClose s) := rfl

theorem onConferenceLeft_of_clean (t : State) (h1 : t.observing = false)
    (h2 : (WinEvent.blur, WinHandler.openAOT) ∉ t.winListeners)
    (h3 : (WinEvent.focus, WinHandler.closeAOT) ∉ t.winListeners)
    (h4 : (WinEvent.close, WinHandler.closeAOT) ∉ t.winListeners)
    (h5 : t.alwaysOnTopWindow = none) (h6 : t.alwaysOnTopBrowserWindow = none) :
    onConferenceLeft t = (t, [Effect.sendShouldClose]) := by
  rw [onConferenceLeft_eq]
  have hpre : confLeftPreClose t = t := by
    unfold confLeftPreClose
    rw [removeFirstPair_of_not_mem _ _ h2, removeFirstPair_of_not_mem _ _ h3,
      removeFirstPair_of_not_mem _ _ h4]
    cases t
    simp_all
  rw [hpre]
  exact close_of_noRefs t h5 h6

/-- C4: starting from any state in which each of the three listeners
`_onConferenceJoined` attaches (blur/open, focus/close, close/close) is
attached at most once, `_onConferenceLeft` leaves zero such listeners on the
primary window; `_onConferenceJoined` registers no listener at all on the
conferencing engine, so zero of its engine-side listeners remain as well;
and a second `_onConferenceLeft` call leaves the state exactly unchanged
(idempotence, and in particular safety without a prior join). -/
theorem confLeft_idempotent_clean (s : State)
    (hb : countOcc s.winListeners (WinEvent.blur, WinHandler.openAOT) ≤ 1)
    (hf : countOcc s.winListeners (WinEvent.focus, WinHandler.closeAOT) ≤ 1)
    (hc : countOcc s.winListeners (WinEvent.close, WinHandler.closeAOT) ≤ 1) :
    (countOcc (onConferenceLeft s).1.winListeners (WinEvent.blur, WinHandler.openAOT) = 0) ∧
      (countOcc (onConferenceLeft s).1.winListeners (WinEvent.focus, WinHandler.closeAOT) = 0) ∧
      (countOcc (onConferenceLeft s).1.winListeners (WinEvent.close, WinHandler.closeAOT) = 0) ∧
      (∀ t, (onConferenceJoined t).apiListeners = t.apiListeners) ∧
      (onConferenceLeft (onConferenceLeft s).1).1 = (onConferenceLeft s).1 := by
  have hwl : (onConferenceLeft s).1.winListeners = (confLeftPreClose s).winListeners := by
    rw [onConferenceLeft_eq, close_winListeners]
  have hcb : countOcc (confLeftPreClose s).winListeners (WinEvent.blur, WinHandler.openAOT) = 0 := by
    unfold confLeftPreClose
    simp only
    rw [countOcc_removeFirstPair_other _ (WinEvent.close, WinHandler.closeAOT)
        (WinEvent.blur, WinHandler.openAOT) (by decide),
      countOcc_removeFirstPair_other _ (WinEvent.focus, WinHandler.closeAOT)
        (WinEvent.blur, WinHandler.openAOT) (by decide),
      countOcc_removeFirstPair_self]
    omega
  have hcf : countOcc (confLeftPreClose s).winListeners (WinEvent.focus, WinHandler.closeAOT) = 0 := by
    unfold confLeftPreClose
    simp only
    rw [countOcc_removeFirstPair_other _ (WinEvent.close, WinHandler.closeAOT)
        (WinEvent.focus, WinHandler.closeAOT) (by decide),
      countOcc_removeFirstPair_self,
      countOcc_removeFirstPair_other _ (WinEvent.blur, WinHandler.openAOT)
        (WinEvent.focus, WinHandler.closeAOT) (by decide)]
    omega
  have hcc : countOcc (confLeftPreClose s).winListeners (WinEvent.close, WinHandler.closeAOT) = 0 := by
    unfold confLeftPreClose
    simp only
    rw [countOcc_removeFirstPair_self,
      countOcc_removeFirstPair_other _ (WinEvent.focus, WinHandler.closeAOT)
        (WinEvent.close, WinHandler.closeAOT) (by decide),
      countOcc_removeFirstPair_other _ (WinEvent.blur, WinHandler.openAOT)
        (WinEvent.close, WinHandler.closeAOT) (by decide)]
    omega
  refine ⟨by rw [hwl]; exact hcb, by rw [hwl]; exact hcf, by rw [hwl]; exact hcc,
    fun t => rfl, ?_⟩
  have hobs : (onConferenceLeft s).1.observing = false := by
    rw [onConferenceLeft_eq, close_observing]
    rfl
  have hrefs := close_clears_refs (confLeftPreClose s)
  rw [onConferenceLeft_of_clean (onConferenceLeft s).1 hobs
    (by rw [hwl]; exact (countOcc_eq_zero_iff _ _).mp hcb)
    (by rw [hwl]; exact (countOcc_eq_zero_iff _ _).mp hcf)
    (by rw [hwl]; exact (countOcc_eq_zero_iff _ _).mp hcc)
    (by rw [onConferenceLeft_eq]; exact hrefs.1)
    (by rw [onConferenceLeft_eq]; exact hrefs.2)]

/-- C4 witness: the theorem applied right after a conference join from the
base state (each listener attached exactly once). -/
theorem confLeft_idempotent_clean_witness :
    (countOcc (onConferenceLeft (onConferenceJoined baseState)).1.winListeners
        (WinEvent.blur, WinHandler.openAOT) = 0) ∧
      (onConferenceLeft (onConferenceLeft (onConferenceJoined baseState)).1).1 =
        (onConferenceLeft (onConferenceJoined baseState)).1 :=
  ⟨(confLeft_idempotent_clean (onConferenceJoined baseState) (by decide) (by decide) (by decide)).1,
   (confLeft_idempotent_clean (onConferenceJoined baseState) (by decide) (by decide) (by decide)).2.2.2.2⟩

/-! ## C5: visibility signals and the focus listener -/

theorem open_winListeners (s : State) :
    (openAlwaysOnTopWindow s).1.winListeners = s.winListeners := by
  rcases hw : s.alwaysOnTopWindow with _ | w <;> simp [openAlwaysOnTopWindow, hw]

theorem open_window_isSome (s : State) :
    (openAlwaysOnTopWindow s).1.alwaysOnTopWindow.isSome = true := by
  rcases hw : s.alwaysOnTopWindow with _ | w <;> simp [openAlwaysOnTopWindow, hw]

/-- A state with the focus listener attached and an open overlay window. -/
def cStateA : State :=
  { baseState with
      winListeners := [(WinEvent.focus, WinHandler.closeAOT)],
      alwaysOnTopWindow := some freshAOTWindow }

/-- A state with the focus listener attached and no overlay. -/
def cStateB : State :=
  { baseState with winListeners := [(WinEvent.focus, WinHandler.closeAOT)] }

/-- C5 counterexample: the claim says that on visibility regained the focus
listener stays detached until a subsequent blur/visibility-lost signal, and
that on visibility lost it is reattached after the overlay opens.  The code
does the opposite: processing a visibility-regained entry ends with the focus
listener attached again (reattached within the same handler, no subsequent
signal needed), and processing a visibility-lost entry opens the overlay yet
leaves the focus listener detached. -/
theorem intersection_focus_counterexample :
    (onIntersection [true] cStateA).map
        (fun p => countOcc p.1.winListeners (WinEvent.focus, WinHandler.closeAOT)) = some 1 ∧
      (onIntersection [false] cStateB).map
        (fun p => (p.1.alwaysOnTopWindow.isSome,
          countOcc p.1.winListeners (WinEvent.focus, WinHandler.closeAOT))) = some (true, 0) := by
  refine ⟨by decide, by decide⟩

/-- C5 (amended): every visibility signal first detaches the focus listener
and processes the last entry of the batch; on visibility regained the overlay
is closed and the focus listener immediately reattached (ending attached
exactly once); on visibility lost the overlay is opened (the overlay window
reference is set) and the focus listener is left detached — it is reattached
only by the next visibility-regained signal, not by the open. -/
theorem intersection_focus_policy (s : State) (entries : List Bool) (b : Bool)
    (hlast : entries.getLast? = some b)
    (hcount : countOcc s.winListeners (WinEvent.focus, WinHandler.closeAOT) ≤ 1) :
    ∃ s' effs, onIntersection entries s = some (s', effs) ∧
      (b = true → s'.alwaysOnTopWindow = none ∧ s'.alwaysOnTopBrowserWindow = none ∧
        countOcc s'.winListeners (WinEvent.focus, WinHandler.closeAOT) = 1) ∧
      (b = false → s'.alwaysOnTopWindow.isSome = true ∧
        countOcc s'.winListeners (WinEvent.focus, WinHandler.closeAOT) = 0) := by
  have hrm : countOcc (removeFirstPair s.winListeners (WinEvent.focus, WinHandler.closeAOT))
      (WinEvent.focus, WinHandler.closeAOT) = 0 := by
    rw [countOcc_removeFirstPair_self]
    omega
  unfold onIntersection
  rw [hlast]
  cases b with
  | true =>
    refine ⟨_, _, rfl, fun _ => ?_, fun hcontra => Bool.noConfusion hcontra⟩
    set s1 : State :=
      { s with winListeners := removeFirstPair s.winListeners (WinEvent.focus, WinHandler.closeAOT) } with hs1
    refine ⟨(close_clears_refs s1).1, (close_clears_refs s1).2, ?_⟩
    simp only [countOcc, if_pos rfl, close_winListeners, hs1]
    rw [hrm]
    simp
  | false =>
    refine ⟨_, _, rfl, fun hcontra => Bool.noConfusion hcontra, fun _ => ?_⟩
    set s1 : State :=
      { s with winListeners := removeFirstPair s.winListeners (WinEvent.focus, WinHandler.closeAOT) } with hs1
    refine ⟨open_window_isSome s1, ?_⟩
    have hgoal : countOcc (openAlwaysOnTopWindow s1).1.winListeners
        (WinEvent.focus, WinHandler.closeAOT) = 0 := by
      rw [open_winListeners]
      exact hrm
    exact hgoal

/-- C5 witness: the amended theorem applied at a concrete state and a
singleton visibility-lost batch. -/
theorem intersection_focus_policy_witness :
    ∃ s' effs, onIntersection [false] cStateB = some (s', effs) ∧
      (False → s'.alwaysOnTopWindow = none ∧ s'.alwaysOnTopBrowserWindow = none ∧
        countOcc s'.winListeners (WinEvent.focus, WinHandler.closeAOT) = 1) ∧
      (s'.alwaysOnTopWindow.isSome = true ∧
        countOcc s'.winListeners (WinEvent.focus, WinHandler.closeAOT) = 0) := by
  obtain ⟨s', effs, h1, h2, h3⟩ :=
    intersection_focus_policy cStateB [false] false rfl (by decide)
  exact ⟨s', effs, h1, fun hf => absurd hf not_false, h3 rfl⟩

/-! ## C9: the VideoRouter pass -/

/-- The participant-video list after `_getOrInsertAlwaysOnTopWindowParticipantVideo`:
unchanged when the element exists, a fresh element inserted otherwise. -/
def insertIfAbsent (l : List (String × VideoElement)) (pid : String) :
    List (String × VideoElement) :=
  match lookupFirst l pid with
  | some _ => l
  | none => (pid, newParticipantVideo) :: l

/-- Number of participants in the list with a resolvable video. -/
def countWithVideo (api : ApiSnapshot) : List String → Nat
  | [] => 0
  | pid :: rest =>
    (if (lookupFirst api.videos pid).isSome then 1 else 0) + countWithVideo api rest

theorem processParticipant_novideo (api : ApiSnapshot) (pid : String) (s : State) (c : Nat)
    (hv : lookupFirst api.videos pid = none) :
    processParticipant api pid s c = some (s, [Effect.sendVideoCount c], c) := by
  simp [processParticipant, hv]

theorem processParticipant_video (api : ApiSnapshot) (pid : String) (s : State) (c : Nat)
    (d : AOTDocument) (ve : VideoElement) (v : SourceVideo)
    (hv : lookupFirst api.videos pid = some v)
    (hw : s.alwaysOnTopWindow = some ⟨some d⟩)
    (hve : d.videoElem = some ve) (hre : d.hasReactElem = true) :
    processParticipant api pid s c =
      some ({ s with alwaysOnTopWindow := some ⟨some { d with videoElem := some { ve with display := "block" }, participantVideos := updateFirst (attachVideo v) (insertIfAbsent d.participantVideos pid) pid }⟩ },
        [Effect.sendVideoCount (c + 1)], c + 1) := by
  cases hpv : lookupFirst d.participantVideos pid with
  | none =>
    simp [processParticipant, hv, getOrInsertParticipantVideo, hw, hpv, hre,
      setAOTVideoDisplayBlock, hve, bindParticipantVideo, insertIfAbsent]
  | some e0 =>
    simp [processParticipant, hv, getOrInsertParticipantVideo, hw, hpv, hre,
      setAOTVideoDisplayBlock, hve, bindParticipantVideo, insertIfAbsent]

theorem lookupFirst_insertIfAbsent_other (l : List (String × VideoElement)) (pid q : String)
    (hne : q ≠ pid) : lookupFirst (insertIfAbsent l pid) q = lookupFirst l q := by
  unfold insertIfAbsent
  cases hpv : lookupFirst l pid with
  | some e0 => rfl
  | none => simp [Ne.symm hne]

theorem lookupFirst_insertIfAbsent_self (l : List (String × VideoElement)) (pid : String) :
    ∃ e, lookupFirst (insertIfAbsent l pid) pid = some e := by
  unfold insertIfAbsent
  cases hpv : lookupFirst l pid with
  | some e0 => exact ⟨e0, hpv⟩
  | none => exact ⟨newParticipantVideo, by simp⟩

theorem overlayReady_elim (s : State) (h : overlayReady s = true) :
    ∃ d ve, s.alwaysOnTopWindow = some ⟨some d⟩ ∧ d.videoElem = some ve ∧
      d.hasReactElem = true := by
  unfold overlayReady at h
  rcases hw : s.alwaysOnTopWindow with _ | ⟨_ | d⟩ <;> rw [hw] at h
  · cases h
  · cases h
  · simp only [Bool.and_eq_true] at h
    obtain ⟨hve, hre⟩ := h
    obtain ⟨ve, hve'⟩ := Option.isSome_iff_exists.mp hve
    exact ⟨d, ve, hw ▸ rfl, hve', hre⟩

theorem processParticipants_spec (api : ApiSnapshot) (l : List String) (s : State) (c : Nat)
    (hready : overlayReady s = true)
    (hnd : ((docVideos s).map Prod.fst).Nodup) :
    ∃ s', processParticipants api l s c =
        some (s', runningCountTrace api l c, c + countWithVideo api l) ∧
      overlayReady s' = true ∧
      ((docVideos s').map Prod.fst).Nodup ∧
      (∀ q, (q ∉ l ∨ lookupFirst api.videos q = none) →
        lookupFirst (docVideos s') q = lookupFirst (docVideos s) q) ∧
      (∀ q v, q ∈ l → lookupFirst api.videos q = some v →
        ∃ e, lookupFirst (docVideos s') q = some (attachVideo v e)) := by
  induction l generalizing s c with
  | nil =>
    refine ⟨s, ?_, hready, hnd, fun q _ => rfl,
      fun q v hmem => absurd hmem (List.not_mem_nil q)⟩
    simp [processParticipants, runningCountTrace, countWithVideo]
  | cons pid rest ih =>
    cases hv : lookupFirst api.videos pid with
    | none =>
      obtain ⟨s', hps, hready', hnd', hframe, hbind⟩ := ih s c hready hnd
      refine ⟨s', ?_, hready', hnd', ?_, ?_⟩
      · simp only [processParticipants, processParticipant_novideo api pid s c hv, hps,
          runningCountTrace, countWithVideo, hv]
        simp
      · intro q hq
        refine hframe q ?_
        rcases hq with hq | hq
        · exact Or.inl (fun hmem => hq (List.mem_cons_of_mem _ hmem))
        · exact Or.inr hq
      · intro q v hmem hlv
        rcases List.mem_cons.mp hmem with rfl | hmem'
        · rw [hv] at hlv
          cases hlv
        · exact hbind q v hmem' hlv
    | some v =>
      obtain ⟨d, ve, hw, hve, hre⟩ := overlayReady_elim s hready
      have hstep := processParticipant_video api pid s c d ve v hv hw hve hre
      set d' : AOTDocument := { d with videoElem := some { ve with display := "block" }, participantVideos := updateFirst (attachVideo v) (insertIfAbsent d.participantVideos pid) pid } with hd'
      set s3 : State := { s with alwaysOnTopWindow := some ⟨some d'⟩ } with hs3
      have hdvs : docVideos s = d.participantVideos := by
        simp [docVideos, hw]
      have hdv3 : docVideos s3 =
          updateFirst (attachVideo v) (insertIfAbsent d.participantVideos pid) pid := by
        simp [docVideos, hs3, hd']
      have hready3 : overlayReady s3 = true := by
        simp [overlayReady, hs3, hd', hre]
      have hnd3 : ((docVideos s3).map Prod.fst).Nodup := by
        rw [hdv3, keys_updateFirst]
        rw [hdvs] at hnd
        unfold insertIfAbsent
        cases hpv : lookupFirst d.participantVideos pid with
        | some e0 => exact hnd
        | none =>
          simp only [List.map_cons, List.nodup_cons]
          exact ⟨not_mem_keys_of_lookupFirst_none _ _ hpv, hnd⟩
      obtain ⟨s', hps, hready', hnd', hframe, hbind⟩ := ih s3 (c + 1) hready3 hnd3
      refine ⟨s', ?_, hready', hnd', ?_, ?_⟩
      · simp only [processParticipants, hstep, hps, runningCountTrace, countWithVideo, hv,
          Option.isSome_some, if_true]
        simp only [List.singleton_append, Option.some.injEq, Prod.mk.injEq, true_and]
        omega
      · intro q hq
        have hqp : q ≠ pid := by
          rcases hq with hq | hq
          · exact fun hc => hq (hc ▸ List.mem_cons_self pid rest)
          · exact fun hc => by rw [hc, hv] at hq; cases hq
        have h1 : lookupFirst (docVideos s') q = lookupFirst (docVideos s3) q := by
          refine hframe q ?_
          rcases hq with hq | hq
          · exact Or.inl (fun hmem => hq (List.mem_cons_of_mem _ hmem))
          · exact Or.inr hq
        rw [h1, hdv3, lookupFirst_updateFirst_other _ _ _ _ hqp,
          lookupFirst_insertIfAbsent_other _ _ _ hqp, hdvs]
      · intro q v' hmem hlv
        by_cases hqp : q = pid
        · subst hqp
          rw [hv] at hlv
          injection hlv with hvv
          subst hvv
          obtain ⟨e, he⟩ := lookupFirst_insertIfAbsent_self d.participantVideos q
          have hs3q : lookupFirst (docVideos s3) q = some (attachVideo v e) := by
            rw [hdv3, lookupFirst_updateFirst_self, he]
            rfl
          by_cases hqr : q ∈ rest
          · exact hbind q v hqr hv
          · have hfr := hframe q (Or.inl hqr)
            rw [hfr, hs3q]
            exact ⟨e, rfl⟩
        · rcases List.mem_cons.mp hmem with h1 | h1
          · exact absurd h1 hqp
          · exact hbind q v' h1 hlv

theorem countOcc_eq_one_of_nodup_mem {α : Type} [DecidableEq α] (l : List α) (p : α)
    (hnd : l.Nodup) (hmem : p ∈ l) : countOcc l p = 1 := by
  induction l with
  | nil => cases hmem
  | cons hd tl ih =>
    rcases List.nodup_cons.mp hnd with ⟨hhd, htl⟩
    rcases List.mem_cons.mp hmem with rfl | hmem'
    · simp [countOcc, (countOcc_eq_zero_iff tl p).mpr hhd]
    · have hne : ¬hd = p := fun hc => hhd (hc ▸ hmem')
      simp [countOcc, hne, ih htl hmem']

theorem runningCountTrace_length (api : ApiSnapshot) (l : List String) (c : Nat) :
    (runningCountTrace api l c).length = l.length := by
  induction l generalizing c with
  | nil => rfl
  | cons pid rest ih => simp [runningCountTrace, ih]

/-- The `#video` element of an otherwise fresh overlay document. -/
def baseVideoElem : VideoElement :=
  { srcObject := none, transform := "", playing := false, display := "none",
    muted := false, autoplay := false }

/-- An overlay document with `#video`, `#react` and no participant videos. -/
def openDoc : AOTDocument :=
  { videoElem := some baseVideoElem, hasReactElem := true, participantVideos := [] }

/-- A state whose overlay window is open and fully rendered. -/
def openReadyState : State :=
  { baseState with alwaysOnTopWindow := some ⟨some openDoc⟩ }

/-- A participant source video: a live stream with a mirrored transform. -/
def demoVideo : SourceVideo := { srcObject := some 7, transform := "scaleX(-1)" }

/-- Two participants, both with resolvable videos. -/
def twoApi : ApiSnapshot :=
  { participants := ["a", "b"], videos := [("a", demoVideo), ("b", demoVideo)] }

/-- No participants at all. -/
def emptyApi : ApiSnapshot := { participants := [], videos := [] }

/-- One participant with a resolvable video. -/
def oneApi : ApiSnapshot := { participants := ["a"], videos := [("a", demoVideo)] }

/-- C9 counterexample: the claim says the count of bound video elements is
reported to the host once after the pass.  The send sits inside the
`forEach` callback, so a pass over two participants with tracks reports
twice (running counts 1 then 2), and a pass over zero participants reports
nothing at all — not once. -/
theorem videoCount_per_participant_counterexample :
    (onParticipantJoined twoApi openReadyState).map Prod.snd =
        some [Effect.sendVideoCount 1, Effect.sendVideoCount 2] ∧
      (onParticipantJoined emptyApi openReadyState).map Prod.snd = some [] := by
  refine ⟨by decide, by decide⟩

/-- C9 (amended): on a pass while the overlay is open (document with `#video`
and `#react` present, participant-video ids without duplicates), every known
participant with a resolvable video ends bound to exactly one overlay video
element — lazily created on first sight or reused — holding the source's
stream and transform with playback started; participants without a
resolvable video are skipped and their bindings untouched; and the running
count of bound videos is reported to the host once per participant processed
(not once per pass), so `sendVideoCount 1` is the single report when exactly
one participant with a track is known. -/
theorem participant_pass_amended (api : ApiSnapshot) (s : State)
    (hready : overlayReady s = true)
    (hnd : ((docVideos s).map Prod.fst).Nodup) :
    ∃ s', onParticipantJoined api s = some (s', runningCountTrace api api.participants 0) ∧
      (runningCountTrace api api.participants 0).length = api.participants.length ∧
      (∀ pid v, pid ∈ api.participants → lookupFirst api.videos pid = some v →
        ∃ e, lookupFirst (docVideos s') pid = some (attachVideo v e) ∧
          (attachVideo v e).srcObject = v.srcObject ∧
          (attachVideo v e).transform = v.transform ∧
          (attachVideo v e).playing = true ∧
          countOcc ((docVideos s').map Prod.fst) pid = 1) ∧
      (∀ pid, (pid ∉ api.participants ∨ lookupFirst api.videos pid = none) →
        lookupFirst (docVideos s') pid = lookupFirst (docVideos s) pid) := by
  obtain ⟨s', hps, hready', hnd', hframe, hbind⟩ :=
    processParticipants_spec api api.participants s 0 hready hnd
  refine ⟨s', ?_, runningCountTrace_length api api.participants 0, ?_, hframe⟩
  · unfold onParticipantJoined
    rw [hps]
    rfl
  · intro pid v hmem hlv
    obtain ⟨e, he⟩ := hbind pid v hmem hlv
    exact ⟨e, he, rfl, rfl, rfl,
      countOcc_eq_one_of_nodup_mem _ _ hnd' (mem_keys_of_lookupFirst_some _ _ _ he)⟩

/-- C9 witness: the amended theorem applied to one participant with a track
while the overlay is open; the single report carries count 1. -/
theorem participant_pass_amended_witness :
    (onParticipantJoined oneApi openReadyState).map Prod.snd =
        some (runningCountTrace oneApi oneApi.participants 0) ∧
      runningCountTrace oneApi oneApi.participants 0 = [Effect.sendVideoCount 1] := by
  obtain ⟨s', h1, -, -, -⟩ :=
    participant_pass_amended oneApi openReadyState (by decide) (by decide)
  exact ⟨by rw [h1]; rfl, by decide⟩
